import Mathlib

/-
Verification of the Multi-Modal Research Assistant core against its
specification.  The Python sources are shallowly embedded: the mutable
`MultimodalRAG` object becomes explicit state passing over `RAGState`,
exceptions become `Except PyErr`, and the external libraries (pymupdf,
CLIP, FAISS, the LLM providers, the filesystem) become oracle functions
collected in an `Env` record.  Every definition is translated from the
source files under review, never from the prose of the specification.
-/

namespace MMRA

/-- Python exception values that the embedded code can raise.
`attributeError` carries the attribute name, the string-carrying
constructors carry the message the source attaches. -/
inductive PyErr where
  | attributeError (attr : String)
  | valueError (msg : String)
  | fileNotFound (msg : String)
  | fitzError (msg : String)
  | customException (msg : String)
  | llmError (msg : String)
deriving DecidableEq, Repr

deriving instance DecidableEq for Except

/-- Python `str.strip()`: drop leading and trailing whitespace. -/
def pyStrip (s : String) : String :=
  String.mk (((s.data.dropWhile Char.isWhitespace).reverse.dropWhile
    Char.isWhitespace).reverse)

/-- Metadata dict attached to a langchain `Document` by the source:
`{"page": n, "type": "text" | "image"}`, plus `"image_id"` for image
documents (`none` models an absent key). -/
structure DocMeta where
  page : Nat
  dtype : String
  image_id : Option String
deriving DecidableEq, Repr

/-- langchain `Document`: `page_content` plus its metadata dict. -/
structure Document where
  page_content : String
  metadata : DocMeta
deriving DecidableEq, Repr

/-- One row of the FAISS index as built by `FAISS.from_texts`: the stored
text, its metadata, and the embedding vector computed for it. -/
structure FAISSEntry where
  text : String
  metadata : DocMeta
  embedding : List Int
deriving DecidableEq, Repr

/-- The FAISS vector store: the rows in insertion order. -/
structure FAISSStore where
  entries : List FAISSEntry
deriving DecidableEq, Repr

/-- One page of a PDF as seen through pymupdf: its extracted text and the
raw byte blobs of its embedded images (byte blobs are modelled as opaque
codes). -/
structure PDFPage where
  text : String
  images : List Nat
deriving DecidableEq, Repr

/-- A PDF document: its pages in order. -/
structure PDFFile where
  pages : List PDFPage
deriving DecidableEq, Repr

/-- Content parts of a multimodal chat message, as assembled by
`create_multimodal_content`: a text block or a base64 image URL part. -/
inductive ContentPart where
  | text (s : String)
  | imageUrl (url : String)
deriving DecidableEq, Repr

/-- The content of a `HumanMessage` sent to the LLM: either a list of
multimodal parts or a plain string prompt. -/
inductive MsgContent where
  | parts (l : List ContentPart)
  | str (s : String)
deriving DecidableEq, Repr

/-- Oracles for everything outside the repository: filesystem, pymupdf,
the langchain text splitter, PIL image decoding, CLIP embeddings, FAISS
similarity search, and the LLM providers.  Vectors are abstract
`List Int`; raster images and byte blobs are opaque `Nat` codes. -/
structure Env where
  pathExists : String → Bool
  openFile : String → Except String PDFFile
  splitText : String → List String
  decodeImage : Nat → Option Nat
  pngB64 : Nat → String
  embedText : String → List Int
  embedImage : Nat → List Int
  faissSearch : FAISSStore → List Int → Nat → List (String × DocMeta)
  llmInvoke : MsgContent → Except String String
  refinerLLM : String → Except String String

/-- The mutable fields of the `MultimodalRAG` singleton.  `llm` records
whether the Gemini client has been constructed (the constructor performs
no network call, so its construction is modelled as always succeeding).
`image_data_store` is the dict from image id to base64 PNG, kept as an
association list in insertion order. -/
structure RAGState where
  all_docs : List Document
  all_embeddings : List (List Int)
  image_data_store : List (String × String)
  vector_store : Option FAISSStore
  llm : Bool
deriving DecidableEq, Repr

/-- The freshly constructed `MultimodalRAG()` object. -/
def freshRAG : RAGState :=
  { all_docs := [], all_embeddings := [], image_data_store := [],
    vector_store := none, llm := false }

/-- `MultimodalRAG._process_page_text`: if the stripped page text is
non-empty, split it into chunks (metadata `page`/`"text"` preserved by
`split_documents`), and for each chunk append its CLIP text embedding to
`all_embeddings` and the chunk document to `all_docs`. -/
def process_page_text (env : Env) (st : RAGState) (ptext : String)
    (page_num : Nat) : RAGState :=
  if pyStrip ptext ≠ "" then
    (env.splitText ptext).foldl (fun s c =>
      { s with
        all_embeddings := s.all_embeddings ++ [env.embedText c],
        all_docs := s.all_docs ++
          [{ page_content := c,
             metadata := { page := page_num, dtype := "text", image_id := none } }] }) st
  else st

/-- Body of the per-image loop of `MultimodalRAG._process_page_images`:
extract and decode the image (any failure there is caught, logged and the
image skipped), store the base64 PNG under the synthesized id
`page_<n>_img_<k>`, append the CLIP image embedding of the decoded raster
to `all_embeddings`, and append the placeholder document to `all_docs`. -/
def process_one_image (env : Env) (st : RAGState) (page_num idx imgBytes : Nat) :
    RAGState :=
  match env.decodeImage imgBytes with
  | none => st
  | some raster =>
    let image_id := "page_" ++ toString page_num ++ "_img_" ++ toString idx
    { st with
      image_data_store := st.image_data_store ++ [(image_id, env.pngB64 raster)],
      all_embeddings := st.all_embeddings ++ [env.embedImage raster],
      all_docs := st.all_docs ++
        [{ page_content := "[Image: " ++ image_id ++ "]",
           metadata := { page := page_num, dtype := "image",
                         image_id := some image_id } }] }

/-- `MultimodalRAG._process_page_images`: loop over the enumerated images
of one page. -/
def process_page_images (env : Env) (st : RAGState) (page_num : Nat)
    (imgs : List Nat) : RAGState :=
  imgs.enum.foldl (fun s p => process_one_image env s page_num p.1 p.2) st

/-- `MultimodalRAG._process_pdf_pages`: loop over the enumerated pages,
first the text then the images of each page. -/
def process_pdf_pages (env : Env) (st : RAGState) (pages : List PDFPage) :
    RAGState :=
  pages.enum.foldl (fun s p =>
    process_page_images env (process_page_text env s p.2.text p.1) p.1 p.2.images) st

/-- `MultimodalRAG._create_vector_store`: raise `ValueError` when
`all_docs` is empty; otherwise build the FAISS store with
`FAISS.from_texts(texts, embedding=self.clip_embeddings, metadatas)`.
`FAISS.from_texts` computes the stored vectors by calling
`clip_embeddings.embed_documents(texts)` — the CLIP text path — on the
given texts; the `all_embeddings` list is not passed to it. -/
def create_vector_store (env : Env) (st : RAGState) :
    Except PyErr Unit × RAGState :=
  if st.all_docs = [] then
    (.error (.valueError "No documents to create vector store"), st)
  else
    (.ok (), { st with vector_store := some (FAISSStore.mk
      (((st.all_docs.map (·.page_content)).zip
          (st.all_docs.map (·.metadata))).map (fun tm =>
            { text := tm.1, metadata := tm.2, embedding := env.embedText tm.1 }))) })

/-- `MultimodalRAG.load_and_process_document`: raise `FileNotFoundError`
when the path does not exist (before touching any field); otherwise clear
`all_docs`, `all_embeddings` and `image_data_store`, open the PDF (a
pymupdf failure propagates with the fields already cleared), process all
pages and build the vector store; any error raised after the clearing is
re-raised with the state as mutated so far. -/
def load_and_process_document (env : Env) (st : RAGState) (file_path : String) :
    Except PyErr Unit × RAGState :=
  if ¬ env.pathExists file_path then
    (.error (.fileNotFound ("File not found: " ++ file_path)), st)
  else
    match env.openFile file_path with
    | .error msg => (.error (.fitzError msg),
        { st with all_docs := [], all_embeddings := [], image_data_store := [] })
    | .ok doc =>
      create_vector_store env (process_pdf_pages env
        { st with all_docs := [], all_embeddings := [], image_data_store := [] }
        doc.pages)

/-- `MultimodalRAG.process_user_document`: run the full ingestion under a
`try`, returning `True` on success and `False` on any caught exception
(the mutations made before the failure remain on the object). -/
def process_user_document (env : Env) (st : RAGState) (file_path : String) :
    Bool × RAGState :=
  match load_and_process_document env st file_path with
  | (.ok _, st') => (true, st')
  | (.error _, st') => (false, st')

/-- `MultimodalRAG.retrieve_multimodal`: raise `ValueError` when the
vector store is unset, otherwise run FAISS `similarity_search` (which
embeds the query through the CLIP text path) and return the retrieved
documents. -/
def retrieve_multimodal (env : Env) (st : RAGState) (query : String) (k : Nat) :
    Except PyErr (List Document) :=
  match st.vector_store with
  | none => .error (.valueError "Vector store not initialized. Process a document first.")
  | some vs =>
    .ok ((env.faissSearch vs (env.embedText query) k).map (fun p =>
      { page_content := p.1, metadata := p.2 }))

/-- Helper for the pythonic `sep.join(pieces)`. -/
def joinWith (sep : String) : List String → String
  | [] => ""
  | [x] => x
  | x :: y :: xs => x ++ sep ++ joinWith sep (y :: xs)

/-- `MultimodalRAG.create_multimodal_content`: build the composite prompt
text (question, per-text-segment `[Page N]:` excerpts, a per-image note),
then append one base64 image URL part per retrieved image document whose
id is present in `image_data_store`. -/
def create_multimodal_content (image_data_store : List (String × String))
    (query : String) (retrieved_docs : List Document) : List ContentPart :=
  let text_docs := retrieved_docs.filter (fun d => d.metadata.dtype == "text")
  let image_docs := retrieved_docs.filter (fun d => d.metadata.dtype == "image")
  let ctx0 := "Question: " ++ query ++ "\n\nContext:\n"
  let ctx1 :=
    if text_docs ≠ [] then
      ctx0 ++ "Text excerpts:\n" ++
        joinWith "\n\n" (text_docs.map (fun d =>
          "[Page " ++ toString d.metadata.page ++ "]: " ++ d.page_content)) ++ "\n"
    else ctx0
  let ctx2 :=
    if image_docs ≠ [] then
      ctx1 ++ "\nImages from document (see attached images):\n" ++
        String.join (image_docs.map (fun d =>
          "- Image from page " ++ toString d.metadata.page ++ "\n"))
    else ctx1
  let ctx3 := ctx2 ++ "\n\nPlease answer the question based on the provided text and images."
  ContentPart.text ctx3 ::
    image_docs.filterMap (fun d =>
      match d.metadata.image_id with
      | some iid =>
        if iid ≠ "" then
          match (image_data_store.lookup iid) with
          | some b64 => some (ContentPart.imageUrl ("data:image/png;base64," ++ b64))
          | none => none
        else none
      | none => none)

/-- `MultimodalRAG._fallback_text_only_query`: keep only the text
documents; with none left return the fixed no-content answer, otherwise
build the text-only prompt and invoke the LLM (a failure here
propagates). -/
def fallback_text_only_query (env : Env) (query : String)
    (context_docs : List Document) : Except PyErr String :=
  let text_docs := context_docs.filter (fun d => d.metadata.dtype == "text")
  if text_docs = [] then
    .ok "No text content found to answer the question."
  else
    let text_context := joinWith "\n\n" (text_docs.map (fun d =>
      "[Page " ++ toString d.metadata.page ++ "]: " ++ d.page_content))
    let prompt := "Question: " ++ query ++ "\n\nContext:\n" ++ text_context ++
      "\n\nPlease answer the question based on the provided text context."
    match env.llmInvoke (.str prompt) with
    | .ok r => .ok r
    | .error m => .error (.llmError m)

/-- `MultimodalRAG.query_document`: construct the Gemini client if not
yet done, retrieve documents (a `ValueError` from an unset store
propagates — this happens before the `try`), assemble the multimodal
content and invoke the LLM; the `try` around the invocation sends any
invocation error to the text-only fallback, whose outcome is returned. -/
def query_document (env : Env) (st : RAGState) (query : String) (k : Nat) :
    Except PyErr String × RAGState :=
  let st1 := if st.llm then st else { st with llm := true }
  match retrieve_multimodal env st1 query k with
  | .error e => (.error e, st1)
  | .ok context_docs =>
    let content := create_multimodal_content st1.image_data_store query context_docs
    match env.llmInvoke (.parts content) with
    | .ok resp => (.ok resp, st1)
    | .error _ => (fallback_text_only_query env query context_docs, st1)

/-- A chat message in the workflow state: its role tag
(user or assistant) and its string content. -/
structure Message where
  role : String
  content : String
deriving DecidableEq, Repr

/-- `AssistantState` from `graph/state.py`: the message history plus the
two optional branch outputs. -/
structure AssistantState where
  messages : List Message
  vector_response : Option String
  research_response : Option String
deriving DecidableEq, Repr

/-- The partial state update dict a langgraph node returns; absent keys
are `none` or `[]`. -/
structure NodeUpdate where
  messages : List Message
  vector_response : Option String
  research_response : Option String
deriving DecidableEq, Repr

/-- CPython attribute lookup `x.content` where `x` is a `str`: a Python
string object has no `content` attribute, so the access raises
`AttributeError` for every string. -/
def strAttrContent (_s : String) : Except PyErr String :=
  .error (.attributeError "content")

/-- `Nodes.QueryRefinerNode`: read the last message content (empty string
when the history is empty); on an empty query return the sentinel error
message without touching the LLM, otherwise invoke the refiner chain and
append its answer (any chain failure is re-raised as `CustomException`).
The second component of the result lists the queries actually sent to the
LLM, so that not invoking the model is observable. -/
def QueryRefinerNode (env : Env) (st : AssistantState) :
    Except PyErr (NodeUpdate × List String) :=
  let query := match st.messages.getLast? with
    | some m => m.content
    | none => ""
  if query = "" then
    .ok ({ messages := [{ role := "assistant",
                          content := "Error: No query provided to refine" }],
           vector_response := none, research_response := none }, [])
  else
    match env.refinerLLM query with
    | .ok resp =>
      .ok ({ messages := [{ role := "assistant", content := resp }],
             vector_response := none, research_response := none }, [query])
    | .error m => .error (.customException m)

/-- `Nodes.VectorNode`: read the last message content, call
`rag.query_document(query)` (whose result is a `str`), then build the
update dict from `response.content` — an attribute a `str` does not
have.  The `except CustomException` clause re-raises unchanged, and other
exceptions propagate as-is, so every error leaves the node as an
exception. -/
def VectorNode (env : Env) (rag : RAGState) (st : AssistantState) :
    Except PyErr (NodeUpdate × RAGState) :=
  let query := match st.messages.getLast? with
    | some m => m.content
    | none => ""
  match query_document env rag query 5 with
  | (.error e, _) => .error e
  | (.ok response, rag') =>
    match strAttrContent response with
    | .error e => .error e
    | .ok c =>
      .ok ({ messages := [], vector_response := some c,
             research_response := none }, rag')

/-- The attribute names defined in the `Nodes` class body of
`graph/node.py`: `QueryRefinerNode`, `ResearchNode`, `VectorNode` and
`VectorNode2`.  No `CombinedNode` is defined there (nor anywhere else in
the repository).  The class body of `VectorNode2` additionally contains
the token sequence `input_variables= = [...]`, a Python syntax error that
makes the whole module fail to import; the model here is the charitable
reading in which the class still exists and attribute lookup decides. -/
def nodesMembers : List String :=
  ["QueryRefinerNode", "ResearchNode", "VectorNode", "VectorNode2"]

/-- Python attribute lookup `Nodes.<name>`: `AttributeError` when the
class body does not define the name. -/
def nodesGetattr (name : String) : Except PyErr String :=
  if nodesMembers.contains name then .ok name else .error (.attributeError name)

/-- `create_workflow` from `graph/graph.py`: register the four nodes
(each `add_node` argument is the attribute lookup `Nodes.<name>`,
evaluated before the call) and wire the fan-out/fan-in edges.  The
returned value records the node table and edge list of the compiled
graph. -/
def create_workflow :
    Except PyErr (List (String × String) × List (String × String)) := do
  let q ← nodesGetattr "QueryRefinerNode"
  let r ← nodesGetattr "ResearchNode"
  let v ← nodesGetattr "VectorNode"
  let c ← nodesGetattr "CombinedNode"
  .ok ([("query_refiner", q), ("research_node", r),
        ("vector_node", v), ("combined_node", c)],
       [("START", "query_refiner"), ("query_refiner", "research_node"),
        ("query_refiner", "vector_node"), ("research_node", "combined_node"),
        ("vector_node", "combined_node"), ("combined_node", "END")])

/-- The host-process state of `main.py`: the RAG singleton, the global
`document_uploaded` flag, the files sitting in the uploads directory, and
the sqlite checkpoint store mapping thread ids to message histories. -/
structure SystemState where
  rag : RAGState
  document_uploaded : Bool
  uploads : List String
  checkpoints : List (String × List Message)
deriving DecidableEq, Repr

/-- `process_document_background` from `main.py`: run
`rag.process_user_document`, set `document_uploaded` to the returned
success flag (`False` on failure), and in the `finally` block remove the
uploaded file. -/
def process_document_background (env : Env) (sys : SystemState)
    (file_path : String) : SystemState :=
  let r := process_user_document env sys.rag file_path
  { sys with rag := r.2, document_uploaded := r.1,
             uploads := sys.uploads.filter (fun p => p ≠ file_path) }

/-- `reset_system` from `main.py`: clear `document_uploaded`, set
`rag.vector_store` to `None`, empty `all_docs`, `all_embeddings` and
`image_data_store`, and delete every file in the uploads directory.  The
checkpoint database is not touched. -/
def reset_system (sys : SystemState) : SystemState :=
  { sys with
    document_uploaded := false,
    rag := { sys.rag with vector_store := none, all_docs := [],
                          all_embeddings := [], image_data_store := [] },
    uploads := [] }

/-- A concrete one-page PDF whose single page has no text and one
embedded image (byte-blob code 0). -/
def onePicPDF : PDFFile := { pages := [{ text := "", images := [0] }] }

/-- A concrete environment used to evaluate the embedded code on small
inputs: every path exists and opens to `onePicPDF`, decoding maps blob
`b` to raster `b + 1`, the text path embeds a string as
`[length, 0]` and the image path embeds raster `r` as `[0, r]`, search
returns the first `k` rows, and both LLMs answer fixed strings. -/
def cEnv : Env :=
  { pathExists := fun _ => true,
    openFile := fun _ => .ok onePicPDF,
    splitText := fun t => [t],
    decodeImage := fun b => some (b + 1),
    pngB64 := fun r => "png" ++ toString r,
    embedText := fun s => [Int.ofNat s.length, 0],
    embedImage := fun r => [0, Int.ofNat r],
    faissSearch := fun vs _ k => (vs.entries.take k).map (fun e => (e.text, e.metadata)),
    llmInvoke := fun _ => .ok "model answer",
    refinerLLM := fun q => .ok ("refined " ++ q) }

/-- Projection of a `RAGState` to the fields that the page-processing
loop never writes: the vector store and the llm-constructed flag. -/
def vsllm (s : RAGState) : Option FAISSStore × Bool :=
  (s.vector_store, s.llm)

/-- Projection of a `RAGState` to the three list fields the ingestion
loop accumulates into. -/
def core3 (s : RAGState) :
    List Document × List (List Int) × List (String × String) :=
  (s.all_docs, s.all_embeddings, s.image_data_store)

theorem foldl_pres {α β γ : Type*} (f : β → α → β) (g : β → γ)
    (h : ∀ b a, g (f b a) = g b) :
    ∀ (l : List α) (b : β), g (l.foldl f b) = g b := by
  intro l
  induction l with
  | nil => intro b; rfl
  | cons x xs ih => intro b; rw [List.foldl_cons, ih, h]

theorem foldl_congr_proj {α β γ : Type*} (f : β → α → β) (g : β → γ)
    (h : ∀ b b' a, g b = g b' → g (f b a) = g (f b' a)) :
    ∀ (l : List α) (b b' : β), g b = g b' →
      g (l.foldl f b) = g (l.foldl f b') := by
  intro l
  induction l with
  | nil => intro b b' hb; exact hb
  | cons x xs ih =>
    intro b b' hb
    rw [List.foldl_cons, List.foldl_cons]
    exact ih _ _ (h _ _ _ hb)

theorem process_page_text_vsllm (env : Env) (st : RAGState) (ptext : String)
    (n : Nat) : vsllm (process_page_text env st ptext n) = vsllm st := by
  unfold process_page_text
  split
  · refine foldl_pres _ vsllm ?_ _ _
    intro b a
    rfl
  · rfl

theorem process_one_image_vsllm (env : Env) (st : RAGState) (n i b : Nat) :
    vsllm (process_one_image env st n i b) = vsllm st := by
  unfold process_one_image
  split <;> rfl

theorem process_page_images_vsllm (env : Env) (st : RAGState) (n : Nat)
    (imgs : List Nat) :
    vsllm (process_page_images env st n imgs) = vsllm st := by
  unfold process_page_images
  refine foldl_pres _ vsllm ?_ _ _
  intro b a
  exact process_one_image_vsllm env b n a.1 a.2

theorem process_pdf_pages_vsllm (env : Env) (st : RAGState)
    (pages : List PDFPage) :
    vsllm (process_pdf_pages env st pages) = vsllm st := by
  unfold process_pdf_pages
  refine foldl_pres _ vsllm ?_ _ _
  intro b a
  rw [process_page_images_vsllm, process_page_text_vsllm]

theorem process_page_text_core3 (env : Env) (s s' : RAGState) (ptext : String)
    (n : Nat) (h : core3 s = core3 s') :
    core3 (process_page_text env s ptext n) = core3 (process_page_text env s' ptext n) := by
  unfold process_page_text
  split
  · refine foldl_congr_proj _ core3 ?_ _ _ _ h
    intro b b' a hb
    simp only [core3, Prod.mk.injEq] at hb ⊢
    exact ⟨by rw [hb.1], by rw [hb.2.1], hb.2.2⟩
  · exact h

theorem process_one_image_core3 (env : Env) (s s' : RAGState) (n i b : Nat)
    (h : core3 s = core3 s') :
    core3 (process_one_image env s n i b) = core3 (process_one_image env s' n i b) := by
  unfold process_one_image
  simp only [core3, Prod.mk.injEq] at h ⊢
  split
  · exact h
  · exact ⟨by rw [h.1], by rw [h.2.1], by rw [h.2.2]⟩

theorem process_page_images_core3 (env : Env) (s s' : RAGState) (n : Nat)
    (imgs : List Nat) (h : core3 s = core3 s') :
    core3 (process_page_images env s n imgs) =
      core3 (process_page_images env s' n imgs) := by
  unfold process_page_images
  refine foldl_congr_proj _ core3 ?_ _ _ _ h
  intro b b' a hb
  exact process_one_image_core3 env b b' n a.1 a.2 hb

theorem process_pdf_pages_core3 (env : Env) (s s' : RAGState)
    (pages : List PDFPage) (h : core3 s = core3 s') :
    core3 (process_pdf_pages env s pages) = core3 (process_pdf_pages env s' pages) := by
  unfold process_pdf_pages
  refine foldl_congr_proj _ core3 ?_ _ _ _ h
  intro b b' a hb
  exact process_page_images_core3 env _ _ a.1 a.2.images
    (process_page_text_core3 env b b' a.2.text a.1 hb)

theorem create_vector_store_llm (env : Env) (s : RAGState) :
    (create_vector_store env s).2.llm = s.llm := by
  unfold create_vector_store
  split <;> rfl

theorem load_llm_pres (env : Env) (st : RAGState) (path : String) :
    (load_and_process_document env st path).2.llm = st.llm := by
  unfold load_and_process_document
  split
  · rfl
  · split
    · rfl
    · rw [create_vector_store_llm]
      have hv := process_pdf_pages_vsllm env
        { st with all_docs := [], all_embeddings := [], image_data_store := [] }
      simp only [vsllm, Prod.mk.injEq] at hv
      exact (hv _).2

/-- Claim C1: the spec says a combine step merges `researchResponse` and
`vectorResponse` into one final assistant message for every workflow
invocation.  The code wires a `combined_node` into the graph, but the
attribute `Nodes.CombinedNode` passed to `add_node` is never defined, so
`create_workflow` raises `AttributeError` and no invocation ever reaches
a combine step. -/
theorem c1_combined_node_missing :
    create_workflow = .error (.attributeError "CombinedNode") := by
  rfl

/-- Claim C2: the spec says the embedding stored in the similarity index
for an image segment is computed by the image path of the embedding
service on the decoded raster.  Ingesting a one-page document whose page
holds a single image shows the code computes the image embedding into
`all_embeddings` but builds the FAISS index via `FAISS.from_texts`, which
re-embeds the placeholder text through the text path: the stored vector
is `embedText "[Image: page_0_img_0]"`, distinct from the image
embedding. -/
theorem c2_image_index_embedding_bug :
    (load_and_process_document cEnv freshRAG "doc.pdf").1 = .ok () ∧
    (load_and_process_document cEnv freshRAG "doc.pdf").2.vector_store =
      some { entries := [{ text := "[Image: page_0_img_0]",
                           metadata := { page := 0, dtype := "image",
                                         image_id := some "page_0_img_0" },
                           embedding := cEnv.embedText "[Image: page_0_img_0]" }] } ∧
    (load_and_process_document cEnv freshRAG "doc.pdf").2.all_embeddings =
      [cEnv.embedImage 1] ∧
    cEnv.embedText "[Image: page_0_img_0]" ≠ cEnv.embedImage 1 := by
  refine ⟨by decide, by decide, by decide, by decide⟩

/-- The RAG state after ingesting `onePicPDF` through `cEnv`: an
initialized vector store holding the single image segment. -/
def st4 : RAGState := (load_and_process_document cEnv freshRAG "doc.pdf").2

/-- A workflow state whose last message is a non-empty refined query. -/
def astate4 : AssistantState :=
  { messages := [{ role := "user", content := "what is in the figure" }],
    vector_response := none, research_response := none }

/-- Claim C4: the spec says the vector node stores the answer text
returned by `query_document` in `vector_response`.  On a state where
`query_document` succeeds with the answer string, `VectorNode` instead
raises `AttributeError`, because it evaluates `response.content` on the
`str` that `query_document` already returned. -/
theorem c4_vector_node_attribute_error :
    (query_document cEnv st4 "what is in the figure" 5).1 = .ok "model answer" ∧
    VectorNode cEnv st4 astate4 = .error (.attributeError "content") := by
  exact ⟨by decide, by decide⟩

/-- Claim C6: a query against an unset vector store fails with the
not-initialized `ValueError` and carries no answer: the check in
`retrieve_multimodal` runs before any LLM work and the error propagates
out of `query_document` unhandled. -/
theorem c6_not_initialized (env : Env) (st : RAGState) (query : String) (k : Nat)
    (h : st.vector_store = none) :
    (query_document env st query k).1 =
      .error (.valueError "Vector store not initialized. Process a document first.") := by
  unfold query_document retrieve_multimodal
  by_cases hl : st.llm <;> simp [hl, h]

/-- Witness for C6 at the fresh RAG state. -/
theorem c6_witness :
    (query_document cEnv freshRAG "any question" 5).1 =
      .error (.valueError "Vector store not initialized. Process a document first.") :=
  c6_not_initialized cEnv freshRAG "any question" 5 rfl

/-- Claim C9: on a workflow state with no messages, or whose last
message has empty content, the query refiner returns the sentinel error
message as the new assistant message and sends nothing to the language
model (the recorded call list is empty). -/
theorem c9_refiner_empty_sentinel (env : Env) (st : AssistantState)
    (h : st.messages = [] ∨ ∃ m, st.messages.getLast? = some m ∧ m.content = "") :
    QueryRefinerNode env st =
      .ok ({ messages := [{ role := "assistant",
                            content := "Error: No query provided to refine" }],
             vector_response := none, research_response := none }, []) := by
  unfold QueryRefinerNode
  rcases h with h | ⟨m, hm, hc⟩
  · simp [h]
  · simp [hm, hc]

/-- Witness for C9 on the empty history. -/
theorem c9_witness :
    QueryRefinerNode cEnv
      { messages := [], vector_response := none, research_response := none } =
      .ok ({ messages := [{ role := "assistant",
                            content := "Error: No query provided to refine" }],
             vector_response := none, research_response := none }, []) :=
  c9_refiner_empty_sentinel cEnv _ (Or.inl rfl)

/-- Claim C10: `process_user_document` is total — it absorbs every
ingestion exception and returns exactly the success boolean of
`load_and_process_document`, alongside whatever state the attempt left
behind. -/
theorem c10_process_user_document_total (env : Env) (st : RAGState)
    (path : String) :
    process_user_document env st path =
      ((match (load_and_process_document env st path).1 with
        | .ok _ => true
        | .error _ => false),
       (load_and_process_document env st path).2) := by
  unfold process_user_document
  cases h : load_and_process_document env st path with
  | mk r s => cases r <;> simp

theorem RAGState.ext_of (a b : RAGState) (h1 : a.all_docs = b.all_docs)
    (h2 : a.all_embeddings = b.all_embeddings)
    (h3 : a.image_data_store = b.image_data_store)
    (h4 : a.vector_store = b.vector_store) (h5 : a.llm = b.llm) : a = b := by
  cases a
  cases b
  simp_all

theorem load_vs_pres_or_ok (env : Env) (st : RAGState) (path : String) :
    (load_and_process_document env st path).1 = .ok () ∨
    (load_and_process_document env st path).2.vector_store = st.vector_store := by
  unfold load_and_process_document
  split
  · exact Or.inr rfl
  · split
    · exact Or.inr rfl
    · unfold create_vector_store
      split
      · refine Or.inr ?_
        have hv := process_pdf_pages_vsllm env
          { st with all_docs := [], all_embeddings := [], image_data_store := [] }
        simp only [vsllm, Prod.mk.injEq] at hv
        exact (hv _).1
      · exact Or.inl rfl

/-- An environment whose every file opens to a PDF without pages, so the
ingestion reaches `_create_vector_store` with no documents and fails. -/
def cEnvEmpty : Env := { cEnv with openFile := fun _ => .ok { pages := [] } }

/-- A state holding the corpus built from an earlier document: one text
segment, one embedding, one stored image asset and a live index. -/
def c3State : RAGState :=
  { all_docs := [{ page_content := "old text",
                   metadata := { page := 0, dtype := "text", image_id := none } }],
    all_embeddings := [[1, 2]],
    image_data_store := [("page_0_img_0", "oldpng")],
    vector_store := some { entries := [] },
    llm := false }

/-- Counterexample to C3: ingesting a document with zero extractable
segments fails mid-processing, yet the previously stored image asset map
and segment list are not left as they were — they were cleared when the
ingestion began. -/
theorem c3_counterexample :
    (load_and_process_document cEnvEmpty c3State "doc.pdf").1 =
      .error (.valueError "No documents to create vector store") ∧
    c3State.image_data_store ≠ [] ∧
    (load_and_process_document cEnvEmpty c3State "doc.pdf").2.image_data_store = [] ∧
    (load_and_process_document cEnvEmpty c3State "doc.pdf").2.all_docs ≠ c3State.all_docs := by
  refine ⟨by decide, by decide, by decide, by decide⟩

/-- Claim C3 (amended): when ingestion fails after starting, the
previously built similarity index (`vector_store`) is left exactly as it
was, but the segment list, embedding list and image-asset store are
cleared at the start of the ingestion and may be left empty or partially
rebuilt. -/
theorem c3_index_preserved_on_failure (env : Env) (st : RAGState)
    (path : String) (e : PyErr)
    (h : (load_and_process_document env st path).1 = .error e) :
    (load_and_process_document env st path).2.vector_store = st.vector_store := by
  rcases load_vs_pres_or_ok env st path with hok | hpres
  · have hcontra : (Except.error e : Except PyErr Unit) = .ok () := h.symm.trans hok
    exact absurd hcontra (by simp)
  · exact hpres

/-- Witness for the amended C3 at the concrete failing ingestion. -/
theorem c3_witness :
    (load_and_process_document cEnvEmpty c3State "doc.pdf").2.vector_store =
      c3State.vector_store :=
  c3_index_preserved_on_failure cEnvEmpty c3State "doc.pdf"
    (.valueError "No documents to create vector store") (by decide)

/-- Claim C5: when the multimodal LLM invocation fails, `query_document`
returns whatever the text-only fallback produces for the same query and
the retrieved documents; and when the retrieved set has no text
documents, that is the fixed no-content answer rather than an error. -/
theorem c5_fallback_policy (env : Env) (st : RAGState) (query : String)
    (k : Nat) (vs : FAISSStore) (e : String)
    (hvs : st.vector_store = some vs)
    (herr : env.llmInvoke (.parts (create_multimodal_content st.image_data_store query
        ((env.faissSearch vs (env.embedText query) k).map (fun p =>
          { page_content := p.1, metadata := p.2 })))) = .error e) :
    (query_document env st query k).1 =
      fallback_text_only_query env query
        ((env.faissSearch vs (env.embedText query) k).map (fun p =>
          { page_content := p.1, metadata := p.2 })) ∧
    (((env.faissSearch vs (env.embedText query) k).map (fun p =>
        ({ page_content := p.1, metadata := p.2 } : Document))).filter
          (fun d => d.metadata.dtype == "text") = [] →
      (query_document env st query k).1 =
        .ok "No text content found to answer the question.") := by
  have hmain : (query_document env st query k).1 =
      fallback_text_only_query env query
        ((env.faissSearch vs (env.embedText query) k).map (fun p =>
          { page_content := p.1, metadata := p.2 })) := by
    unfold query_document retrieve_multimodal
    by_cases hl : st.llm <;> simp [hl, hvs, herr]
  refine ⟨hmain, fun hempty => ?_⟩
  rw [hmain]
  unfold fallback_text_only_query
  simp [hempty]

/-- An environment whose LLM rejects every multimodal message but
answers plain text prompts, and whose search returns nothing. -/
def env5 : Env :=
  { cEnv with
    llmInvoke := fun c =>
      match c with
      | .parts _ => .error "multimodal rejected"
      | .str _ => .ok "text answer",
    faissSearch := fun _ _ _ => [] }

/-- A state whose vector store is initialized (with an empty index). -/
def st5 : RAGState := { freshRAG with vector_store := some { entries := [] } }

/-- Witness for C5: with no text documents retrieved and a failing
multimodal invocation, the query returns the fixed no-content answer. -/
theorem c5_witness :
    (query_document env5 st5 "q" 5).1 =
      .ok "No text content found to answer the question." :=
  (c5_fallback_policy env5 st5 "q" 5 { entries := [] } "multimodal rejected"
    rfl rfl).2 rfl

theorem process_user_document_llm (env : Env) (st : RAGState) (path : String) :
    (process_user_document env st path).2.llm = st.llm := by
  unfold process_user_document
  have hl := load_llm_pres env st path
  cases h : load_and_process_document env st path with
  | mk r s =>
    rw [h] at hl
    cases r <;> simpa using hl

/-- Claim C7: ingesting a document from a pristine system and then
resetting returns the system to the exact pre-ingestion state — the
ready flag is false, the corpus is unset, the image store is empty, the
full RAG state equals the pre-ingestion one — while the checkpoint store
is untouched by the reset. -/
theorem c7_reset_round_trip (env : Env) (sys : SystemState) (path : String)
    (_h1 : sys.document_uploaded = false) (h2 : sys.rag.vector_store = none)
    (h3 : sys.rag.all_docs = []) (h4 : sys.rag.all_embeddings = [])
    (h5 : sys.rag.image_data_store = []) :
    (reset_system (process_document_background env sys path)).document_uploaded = false ∧
    (reset_system (process_document_background env sys path)).rag.vector_store = none ∧
    (reset_system (process_document_background env sys path)).rag.image_data_store = [] ∧
    (reset_system (process_document_background env sys path)).checkpoints = sys.checkpoints ∧
    (reset_system (process_document_background env sys path)).rag = sys.rag := by
  refine ⟨rfl, rfl, rfl, rfl, ?_⟩
  refine RAGState.ext_of _ _ ?_ ?_ ?_ ?_ ?_
  · exact h3.symm
  · exact h4.symm
  · exact h5.symm
  · exact h2.symm
  · have hllm := process_user_document_llm env sys.rag path
    simpa [reset_system, process_document_background] using hllm

/-- A pristine host state with one stored session history and one stale
upload. -/
def sys7 : SystemState :=
  { rag := freshRAG, document_uploaded := false,
    uploads := ["uploads/a.pdf"],
    checkpoints := [("thread-1", [{ role := "user", content := "hi" }])] }

/-- Witness for C7 at a concrete pristine system. -/
theorem c7_witness :
    (reset_system (process_document_background cEnv sys7 "uploads/a.pdf")).document_uploaded = false ∧
    (reset_system (process_document_background cEnv sys7 "uploads/a.pdf")).rag.vector_store = none ∧
    (reset_system (process_document_background cEnv sys7 "uploads/a.pdf")).rag.image_data_store = [] ∧
    (reset_system (process_document_background cEnv sys7 "uploads/a.pdf")).checkpoints = sys7.checkpoints ∧
    (reset_system (process_document_background cEnv sys7 "uploads/a.pdf")).rag = sys7.rag :=
  c7_reset_round_trip cEnv sys7 "uploads/a.pdf" rfl rfl rfl rfl rfl

theorem load_state_independent (env : Env) (s s' : RAGState) (path : String) :
    (load_and_process_document env s path).1 =
      (load_and_process_document env s' path).1 ∧
    ((load_and_process_document env s path).1 = .ok () →
      core3 (load_and_process_document env s path).2 =
        core3 (load_and_process_document env s' path).2 ∧
      (load_and_process_document env s path).2.vector_store =
        (load_and_process_document env s' path).2.vector_store) := by
  unfold load_and_process_document
  by_cases hp : env.pathExists path
  · rw [if_neg (by simp [hp]), if_neg (by simp [hp])]
    cases ho : env.openFile path with
    | error m => exact ⟨rfl, by intro h; simp at h⟩
    | ok doc =>
      have hc : core3 (process_pdf_pages env
          { s with all_docs := [], all_embeddings := [], image_data_store := [] } doc.pages) =
          core3 (process_pdf_pages env
          { s' with all_docs := [], all_embeddings := [], image_data_store := [] } doc.pages) :=
        process_pdf_pages_core3 env _ _ doc.pages rfl
      simp only [core3, Prod.mk.injEq] at hc
      obtain ⟨hdocs, hemb, himg⟩ := hc
      unfold create_vector_store
      dsimp only
      by_cases hnil : (process_pdf_pages env
          { s with all_docs := [], all_embeddings := [], image_data_store := [] } doc.pages).all_docs = []
      · rw [if_pos hnil, if_pos (by rw [← hdocs]; exact hnil)]
        exact ⟨rfl, by intro h; simp at h⟩
      · rw [if_neg hnil, if_neg (by rw [← hdocs]; exact hnil)]
        refine ⟨rfl, fun _ => ⟨?_, ?_⟩⟩
        · simp only [core3, Prod.mk.injEq]
          exact ⟨by simp [hdocs], by simp [hemb], by simp [himg]⟩
        · simp [hdocs]
  · rw [if_pos hp, if_pos hp]
    exact ⟨rfl, by intro h; simp at h⟩

/-- Claim C8: after a successful ingestion, ingesting the same document
again succeeds and yields exactly the same segment list, embedding list,
image store and index — each ingestion replaces rather than appends. -/
theorem c8_reingest_idempotent (env : Env) (st : RAGState) (path : String)
    (h1 : (load_and_process_document env st path).1 = .ok ()) :
    (load_and_process_document env (load_and_process_document env st path).2 path).1 = .ok () ∧
    (load_and_process_document env (load_and_process_document env st path).2 path).2.all_docs =
      (load_and_process_document env st path).2.all_docs ∧
    (load_and_process_document env (load_and_process_document env st path).2 path).2.all_embeddings =
      (load_and_process_document env st path).2.all_embeddings ∧
    (load_and_process_document env (load_and_process_document env st path).2 path).2.image_data_store =
      (load_and_process_document env st path).2.image_data_store ∧
    (load_and_process_document env (load_and_process_document env st path).2 path).2.vector_store =
      (load_and_process_document env st path).2.vector_store := by
  have hA := load_state_independent env (load_and_process_document env st path).2 st path
  have h2ok : (load_and_process_document env
      (load_and_process_document env st path).2 path).1 = .ok () := by
    rw [hA.1, h1]
  have hB := hA.2 h2ok
  simp only [core3, Prod.mk.injEq] at hB
  exact ⟨h2ok, hB.1.1, hB.1.2.1, hB.1.2.2, hB.2⟩

/-- Witness for C8 at the concrete one-image document. -/
theorem c8_witness :
    (load_and_process_document cEnv (load_and_process_document cEnv freshRAG "doc.pdf").2 "doc.pdf").1 = .ok () ∧
    (load_and_process_document cEnv (load_and_process_document cEnv freshRAG "doc.pdf").2 "doc.pdf").2.all_docs =
      (load_and_process_document cEnv freshRAG "doc.pdf").2.all_docs ∧
    (load_and_process_document cEnv (load_and_process_document cEnv freshRAG "doc.pdf").2 "doc.pdf").2.all_embeddings =
      (load_and_process_document cEnv freshRAG "doc.pdf").2.all_embeddings ∧
    (load_and_process_document cEnv (load_and_process_document cEnv freshRAG "doc.pdf").2 "doc.pdf").2.image_data_store =
      (load_and_process_document cEnv freshRAG "doc.pdf").2.image_data_store ∧
    (load_and_process_document cEnv (load_and_process_document cEnv freshRAG "doc.pdf").2 "doc.pdf").2.vector_store =
      (load_and_process_document cEnv freshRAG "doc.pdf").2.vector_store :=
  c8_reingest_idempotent cEnv freshRAG "doc.pdf" (by decide)

end MMRA
